import Mathlib

/-!
Shallow embedding of the Google Calendar synchronization subsystem of
`src/backend/roommate_app.py` (Flask backend of the Rm8-dash household app).

Modelling conventions:
- The SQLite table `calendar_events` is a `List CalendarRecord`, one entry per
  row, in insertion order.  `DELETE FROM calendar_events WHERE type = X` is
  `List.filter`, `INSERT` is append.
- The Flask `session` dict entry `google_access_token` is an `Option String`.
- Calls to the Google HTTP API are modelled by an oracle argument: either a
  function from the request parameters to the provider outcome (for the list
  call, so that the outcome may depend on the request), or a single outcome
  value (for the create call).  The boolean `network` component of each
  endpoint result records whether the outbound HTTP call was reached.
- `datetime.now()` is a `Nat` clock-value parameter `now`; the Python
  `isoformat` rendering is abstracted by the injective `pyIsoformat`.
  The source reads the clock once per inserted row; within a single pass the
  readings are collapsed to the single pass-level reading, which no claim
  distinguishes.
- `uuid.uuid4()` is an injected supply `uuids : Nat → String` indexed by the
  insertion position within the pass (a single `uuid : String` for the create
  endpoint, which generates one id).
- Python `KeyError` on `data[k]` for a missing key k, caught by the
  surrounding `except` and rendered as `(jsonify error=str(e)), 500`, is
  modelled as an error response with message `"KeyError: " ++ k` and
  status 500.
- The schema constraint `start_date TEXT NOT NULL` makes an insert of a row
  with a NULL start date raise; the surrounding connection is closed without
  commit, so the whole pass rolls back.  This is modelled by the
  `all start_date.isSome` guard in `sync_google_calendar`.
-/

namespace RoommateApp

/-- Abstract rendering of `datetime.isoformat()` applied to the `Nat` clock
model of `datetime.now()`.  Injective, which is all the development uses. -/
def pyIsoformat (t : Nat) : String := toString t

/-- Rendering of Python `json.dumps` on a list of strings, as stored in the
`attendees` column of `calendar_events`. -/
def jsonDumps (xs : List String) : String :=
  "[" ++ String.intercalate ", " (xs.map (fun s => "\"" ++ s ++ "\"")) ++ "]"

/-- One row of the `calendar_events` SQLite table (schema at
roommate_app.py lines 144-155). -/
structure CalendarRecord where
  id : String
  title : String
  description : String
  start_date : Option String
  end_date : Option String
  type : String
  created_by : String
  attendees : String
  location : String
  created_at : String
deriving DecidableEq

/-- The `start` / `end` sub-objects of a Google Calendar API event item;
an absent sub-object is modelled by both fields `none`
(`event.get('start', \x7b\x7d)`). -/
structure GoogleEventTime where
  dateTime : Option String := none
  date : Option String := none
deriving DecidableEq

/-- An entry of the `attendees` array of a Google Calendar API event item. -/
structure GoogleAttendee where
  email : Option String := none
deriving DecidableEq

/-- A raw Google Calendar API event item, with every key the source touches.
`id` is an `Option` because the source indexes `event['id']` directly and a
missing key raises. -/
structure GoogleEvent where
  id : Option String := none
  summary : Option String := none
  description : Option String := none
  start : GoogleEventTime := {}
  end_ : GoogleEventTime := {}
  attendees : List GoogleAttendee := []
  location : Option String := none
deriving DecidableEq

/-- The local-format event dict built by `get_google_calendar_events`
(roommate_app.py lines 744-755). -/
structure TranslatedEvent where
  id : String
  title : String
  description : String
  start_date : Option String
  end_date : Option String
  type : String
  created_by : String
  attendees : List String
  location : String
  source : String
deriving DecidableEq

/-- Translation of one raw Google event into the local format, the loop body
at roommate_app.py lines 740-755.  Returns `none` exactly when `event['id']`
raises (missing key), which aborts the whole fetch; every other field is
defaulted, never skipped. -/
def translateGoogleEvent (e : GoogleEvent) : Option TranslatedEvent :=
  match e.id with
  | none => none
  | some i => some
    { id := i
      title := e.summary.getD "No Title"
      description := e.description.getD ""
      start_date := match e.start.dateTime with
        | some d => some d
        | none => e.start.date
      end_date := match e.end_.dateTime with
        | some d => some d
        | none => e.end_.date
      type := "google_calendar"
      created_by := "Google Calendar"
      attendees := e.attendees.map (fun a => a.email.getD "")
      location := e.location.getD ""
      source := "google" }

/-- Query parameters of the Google Calendar list request
(roommate_app.py lines 722-731). -/
structure ListRequestParams where
  timeMin : String
  timeMax : String
  singleEvents : Bool
  orderBy : String
deriving DecidableEq

/-- The list-request parameters the source builds: a fixed window from the
current clock to 30 days later, `singleEvents=True`, `orderBy='startTime'`.
The route takes no caller-supplied window. -/
def googleListParams (now : Nat) : ListRequestParams :=
  { timeMin := pyIsoformat now ++ "Z"
    timeMax := pyIsoformat (now + 30 * 86400) ++ "Z"
    singleEvents := true
    orderBy := "startTime" }

/-- Modelled from the spec: the spec (section 4.2) describes `listEvents`
as restricted to a caller-supplied half-open window `[windowStart,
windowEnd)` with server-side expansion and ascending start order.  No such
caller-window request builder exists in the source; this definition follows
the spec words, for comparison with `googleListParams`. -/
def specListParams (windowStart windowEnd : Nat) : ListRequestParams :=
  { timeMin := pyIsoformat windowStart ++ "Z"
    timeMax := pyIsoformat windowEnd ++ "Z"
    singleEvents := true
    orderBy := "startTime" }

/-- Outcome of one outbound HTTP call: a response object, or a raised
transport exception (`requests` error / timeout). -/
inductive ProviderCall (α : Type) where
  | response (r : α)
  | transportFailure (msg : String)
deriving DecidableEq

/-- Provider response to the event-list GET: HTTP status plus the `items`
array of the JSON body (meaningful when the status is 200). -/
structure ProviderListResponse where
  status : Nat
  items : List GoogleEvent
deriving DecidableEq

/-- Provider response to the event-create POST: HTTP status plus the `id`
field of the JSON body (meaningful when the status is 200). -/
structure ProviderCreateResponse where
  status : Nat
  googleId : String
deriving DecidableEq

/-- Result of the `/api/calendar/google/events` endpoint: a 200 with the
translated event list, or an error body with an HTTP status. -/
inductive FetchResult where
  | events (es : List TranslatedEvent)
  | fetchError (msg : String) (status : Nat)
deriving DecidableEq

/-- The `/api/calendar/google/events` endpoint `get_google_calendar_events`
(roommate_app.py lines 710-763).  The second component records whether the
outbound HTTP call was made. -/
def get_google_calendar_events (token : Option String) (now : Nat)
    (provider : ListRequestParams → ProviderCall ProviderListResponse) :
    FetchResult × Bool :=
  match token with
  | none => (.fetchError "Not authenticated with Google" 401, false)
  | some _ =>
    match provider (googleListParams now) with
    | .response r =>
      if r.status == 200 then
        match r.items.mapM translateGoogleEvent with
        | some es => (.events es, true)
        | none => (.fetchError "KeyError: id" 500, true)
      else
        (.fetchError "Failed to fetch Google Calendar events" r.status, true)
    | .transportFailure msg => (.fetchError msg 500, true)

/-- Response of the sync endpoint: a 200 with a message, or an error body
with an HTTP status. -/
inductive SyncResponse where
  | ok (message : String)
  | error (message : String) (status : Nat)
deriving DecidableEq

/-- HTTP status code carried by a sync response. -/
def SyncResponse.statusCode : SyncResponse → Nat
  | .ok _ => 200
  | .error _ s => s

/-- Whether a sync response is the 200 success. -/
def SyncResponse.isOk : SyncResponse → Bool
  | .ok _ => true
  | .error _ _ => false

/-- Full observable outcome of one call of the sync endpoint: HTTP response,
resulting table contents, and whether the outbound HTTP call was made. -/
structure SyncOutcome where
  response : SyncResponse
  store : List CalendarRecord
  network : Bool
deriving DecidableEq

/-- The row inserted for one fetched event by the sync loop
(roommate_app.py lines 853-869): fresh uuid, fields copied from the
translated event, `type = 'google_sync'`, `created_by = 'Google Calendar'`,
fresh `created_at`. -/
def insertGoogleEvent (uuid nowIso : String) (e : TranslatedEvent) :
    CalendarRecord :=
  { id := uuid
    title := e.title
    description := e.description
    start_date := e.start_date
    end_date := e.end_date
    type := "google_sync"
    created_by := "Google Calendar"
    attendees := jsonDumps e.attendees
    location := e.location
    created_at := nowIso }

/-- The `/api/calendar/sync` endpoint `sync_google_calendar`
(roommate_app.py lines 835-880): it calls the Flask view
`get_google_calendar_events()` directly (line 840).  On success that view
returns a bare Response (status 200) and the reconciliation runs: delete
every row with `type = 'google_sync'`, insert one fresh row per fetched
event, in order.  On every failure path the view returns a
`(Response, status)` tuple, so reading `.status_code` on it (line 842)
raises AttributeError; the `except` at lines 878-880 catches it and
returns the stringified exception with HTTP 500 and the table untouched.
The `else` branch at lines 875-876 (message `Failed to sync with Google
Calendar`) is dead code, reachable only from a bare non-200 Response,
which the fetch view never produces.  The AttributeError text is rendered
without the Python quote marks around `tuple` and `status_code`.  The NOT
NULL guard models the schema constraint on `start_date`: a violating
insert raises inside the sync try block and the connection is closed
without commit, rolling the whole pass back and surfacing the stringified
IntegrityError. -/
def sync_google_calendar (token : Option String) (now : Nat)
    (provider : ListRequestParams → ProviderCall ProviderListResponse)
    (uuids : Nat → String) (store : List CalendarRecord) : SyncOutcome :=
  match get_google_calendar_events token now provider with
  | (.events es, net) =>
    if es.all (fun e => e.start_date.isSome) then
      { response := .ok ("Synced " ++ toString es.length ++
          " events from Google Calendar")
        store := store.filter (fun r => r.type != "google_sync") ++
          es.enum.map (fun p => insertGoogleEvent (uuids p.1) (pyIsoformat now) p.2)
        network := net }
    else
      { response := .error "NOT NULL constraint failed: calendar_events.start_date" 500
        store := store
        network := net }
  | (.fetchError _ _, net) =>
    { response := .error
        "AttributeError: tuple object has no attribute status_code" 500
      store := store
      network := net }

/-- Request body of the create endpoint (`request.json`): every key the
source touches, each `Option` since the dict may lack it. -/
structure EventDraft where
  title : Option String := none
  description : Option String := none
  start_date : Option String := none
  end_date : Option String := none
  location : Option String := none
  attendees : Option (List String) := none
  created_by : Option String := none
deriving DecidableEq

/-- Response of the create endpoint: a 200 carrying the Google-assigned id
and a message, or an error body with an HTTP status. -/
inductive PushResponse where
  | ok (googleId : String) (message : String)
  | error (message : String) (status : Nat)
deriving DecidableEq

/-- Full observable outcome of one call of the create endpoint. -/
structure PushOutcome where
  response : PushResponse
  store : List CalendarRecord
  network : Bool
deriving DecidableEq

/-- The `/api/calendar/google/create` endpoint `create_google_calendar_event`
(roommate_app.py lines 765-833).  The request body is read in source order:
`data['title']`, then `data['start_date']`, then `data['end_date']` (each a
raising index), the rest via defaulted `.get`.  On a 200 from the provider a
single local row is inserted with `type = 'google_sync'`; the response body
carries the Google event id only. -/
def create_google_calendar_event (token : Option String) (draft : EventDraft)
    (provider : ProviderCall ProviderCreateResponse) (uuid : String)
    (now : Nat) (store : List CalendarRecord) : PushOutcome :=
  match token with
  | none => { response := .error "Not authenticated with Google" 401
              store := store, network := false }
  | some _ =>
    match draft.title with
    | none => { response := .error "KeyError: title" 500
                store := store, network := false }
    | some title =>
      match draft.start_date with
      | none => { response := .error "KeyError: start_date" 500
                  store := store, network := false }
      | some sd =>
        match draft.end_date with
        | none => { response := .error "KeyError: end_date" 500
                    store := store, network := false }
        | some ed =>
          match provider with
          | .transportFailure msg =>
            { response := .error msg 500, store := store, network := true }
          | .response r =>
            if r.status == 200 then
              { response := .ok r.googleId
                  "Event created in Google Calendar and synced locally"
                store := store ++ [{
                  id := uuid
                  title := title
                  description := draft.description.getD ""
                  start_date := some sd
                  end_date := some ed
                  type := "google_sync"
                  created_by := draft.created_by.getD "System"
                  attendees := jsonDumps (draft.attendees.getD [])
                  location := draft.location.getD ""
                  created_at := pyIsoformat now }]
                network := true }
            else
              { response := .error "Failed to create Google Calendar event" r.status
                store := store, network := true }

/-- Configuration constant at roommate_app.py line 33. -/
def GOOGLE_CLIENT_ID : String := "your-google-client-id"

/-- Configuration constant at roommate_app.py line 35. -/
def GOOGLE_REDIRECT_URI : String := "http://localhost:5000/api/auth/google/callback"

/-- Configuration constant at roommate_app.py line 36. -/
def GOOGLE_CALENDAR_SCOPE : String := "https://www.googleapis.com/auth/calendar"

/-- Abstract rendering of `urllib.parse.urlencode` on an ordered parameter
list (percent-escaping elided). -/
def urlencode (ps : List (String × String)) : String :=
  String.intercalate "&" (ps.map (fun p => p.1 ++ "=" ++ p.2))

/-- The parameter dict built by the `/api/auth/google` route
(roommate_app.py lines 663-670), in source order, parametrized by the
configuration values the source reads from module constants. -/
def googleAuthParams (clientId redirectUri scope : String) :
    List (String × String) :=
  [("client_id", clientId),
   ("redirect_uri", redirectUri),
   ("scope", scope),
   ("response_type", "code"),
   ("access_type", "offline"),
   ("prompt", "consent")]

/-- The `/api/auth/google` route `google_auth` (roommate_app.py lines
659-673): the consent-screen URL it returns in the `auth_url` body field. -/
def google_auth (clientId redirectUri scope : String) : String :=
  "https://accounts.google.com/o/oauth2/auth" ++ "?" ++
    urlencode (googleAuthParams clientId redirectUri scope)

/-- All fields of a stored row except the locally generated `id` and
`created_at`. -/
structure StableContent where
  title : String
  description : String
  start_date : Option String
  end_date : Option String
  type : String
  created_by : String
  attendees : String
  location : String
deriving DecidableEq

/-- All fields of a stored row except the locally generated `id`. -/
structure ContentExceptId where
  title : String
  description : String
  start_date : Option String
  end_date : Option String
  type : String
  created_by : String
  attendees : String
  location : String
  created_at : String
deriving DecidableEq

/-- Projection of a stored row to every field except `id` and
`created_at`: the content compared by the repeated-sync claim after
amendment. -/
def stableContent (r : CalendarRecord) : StableContent :=
  { title := r.title, description := r.description
    start_date := r.start_date, end_date := r.end_date
    type := r.type, created_by := r.created_by
    attendees := r.attendees, location := r.location }

/-- Projection of a stored row to every field except `id`: the content
compared by the repeated-sync claim as stated. -/
def contentExceptId (r : CalendarRecord) : ContentExceptId :=
  { title := r.title, description := r.description
    start_date := r.start_date, end_date := r.end_date
    type := r.type, created_by := r.created_by
    attendees := r.attendees, location := r.location
    created_at := r.created_at }

/-- The remote-origin rows of a table state, with locally generated id and
insertion timestamp erased. -/
def remoteStable (st : List CalendarRecord) : List StableContent :=
  (st.filter (fun r => r.type == "google_sync")).map stableContent

/-- Concrete remote event used by the demonstration scenarios. -/
def demoGoogleEvent1 : GoogleEvent :=
  { id := some "g1"
    summary := some "Dinner"
    description := some "Taco night"
    start := { dateTime := some "2024-01-05T18:00:00" }
    end_ := { dateTime := some "2024-01-05T20:00:00" }
    attendees := [{ email := some "ana@example.test" }]
    location := some "Home" }

/-- Concrete locally authored row used by the demonstration scenarios. -/
def demoLocalRecord : CalendarRecord :=
  { id := "loc-1"
    title := "Rent due"
    description := ""
    start_date := some "2024-01-01"
    end_date := none
    type := "event"
    created_by := "Ana"
    attendees := "[]"
    location := ""
    created_at := "0" }

/-- Concrete uuid supply used by the demonstration scenarios. -/
def demoUuids : Nat → String := fun n => "u" ++ toString n

/-- A provider that answers every list request with a 200 carrying one
event. -/
def demoProvider1 : ListRequestParams → ProviderCall ProviderListResponse :=
  fun _ => .response { status := 200, items := [demoGoogleEvent1] }

theorem insertGoogleEvent_type (u n : String) (e : TranslatedEvent) :
    (insertGoogleEvent u n e).type = "google_sync" := rfl

theorem remote_filter_fresh (es : List TranslatedEvent) (uuids : Nat → String)
    (n : String) :
    (es.enum.map (fun p => insertGoogleEvent (uuids p.1) n p.2)).filter
        (fun r => r.type == "google_sync") =
      es.enum.map (fun p => insertGoogleEvent (uuids p.1) n p.2) := by
  apply List.filter_eq_self.mpr
  intro a ha
  rcases List.mem_map.mp ha with ⟨p, _, rfl⟩
  rfl

theorem local_filter_fresh (es : List TranslatedEvent) (uuids : Nat → String)
    (n : String) :
    (es.enum.map (fun p => insertGoogleEvent (uuids p.1) n p.2)).filter
        (fun r => r.type != "google_sync") = [] := by
  rw [List.filter_eq_nil_iff]
  intro a ha
  rcases List.mem_map.mp ha with ⟨p, _, rfl⟩
  simp [insertGoogleEvent]

theorem cleared_filter_local_self (store : List CalendarRecord) :
    ((store.filter (fun r => r.type != "google_sync")).filter
        (fun r => r.type != "google_sync")) =
      store.filter (fun r => r.type != "google_sync") := by
  apply List.filter_eq_self.mpr
  intro a ha
  exact (List.mem_filter.mp ha).2

theorem cleared_filter_remote_nil (store : List CalendarRecord) :
    ((store.filter (fun r => r.type != "google_sync")).filter
        (fun r => r.type == "google_sync")) = [] := by
  rw [List.filter_eq_nil_iff]
  intro a ha
  have h := (List.mem_filter.mp ha).2
  simp only [bne_iff_ne, ne_eq] at h
  simp [h]

theorem fetch_events_net (token : Option String) (now : Nat)
    (provider : ListRequestParams → ProviderCall ProviderListResponse)
    (es : List TranslatedEvent) (net : Bool)
    (h : get_google_calendar_events token now provider = (.events es, net)) :
    net = true := by
  unfold get_google_calendar_events at h
  split at h
  · simp at h
  · split at h
    · split at h
      · split at h
        · simp only [Prod.mk.injEq] at h
          exact h.2.symm
        · simp at h
      · simp at h
    · simp at h

theorem sync_eval_events (token : Option String) (now : Nat)
    (provider : ListRequestParams → ProviderCall ProviderListResponse)
    (uuids : Nat → String) (store : List CalendarRecord)
    (es : List TranslatedEvent) (net : Bool)
    (hf : get_google_calendar_events token now provider = (.events es, net))
    (hall : es.all (fun e => e.start_date.isSome) = true) :
    sync_google_calendar token now provider uuids store =
      { response := .ok ("Synced " ++ toString es.length ++
          " events from Google Calendar")
        store := store.filter (fun r => r.type != "google_sync") ++
          es.enum.map (fun p =>
            insertGoogleEvent (uuids p.1) (pyIsoformat now) p.2)
        network := net } := by
  unfold sync_google_calendar
  rw [hf]
  simp [hall]

theorem sync_eval_badrow (token : Option String) (now : Nat)
    (provider : ListRequestParams → ProviderCall ProviderListResponse)
    (uuids : Nat → String) (store : List CalendarRecord)
    (es : List TranslatedEvent) (net : Bool)
    (hf : get_google_calendar_events token now provider = (.events es, net))
    (hall : es.all (fun e => e.start_date.isSome) = false) :
    sync_google_calendar token now provider uuids store =
      { response :=
          .error "NOT NULL constraint failed: calendar_events.start_date" 500
        store := store
        network := net } := by
  unfold sync_google_calendar
  rw [hf]
  simp [hall]

theorem sync_eval_fetch_error (token : Option String) (now : Nat)
    (provider : ListRequestParams → ProviderCall ProviderListResponse)
    (uuids : Nat → String) (store : List CalendarRecord)
    (msg : String) (s : Nat) (net : Bool)
    (hf : get_google_calendar_events token now provider =
      (.fetchError msg s, net)) :
    sync_google_calendar token now provider uuids store =
      { response := .error
          "AttributeError: tuple object has no attribute status_code" 500
        store := store
        network := net } := by
  unfold sync_google_calendar
  rw [hf]

theorem sync_ok_cases (token : Option String) (now : Nat)
    (provider : ListRequestParams → ProviderCall ProviderListResponse)
    (uuids : Nat → String) (store : List CalendarRecord)
    (h : (sync_google_calendar token now provider uuids store).response.isOk
      = true) :
    ∃ es, get_google_calendar_events token now provider = (.events es, true) ∧
      es.all (fun e => e.start_date.isSome) = true ∧
      sync_google_calendar token now provider uuids store =
        { response := .ok ("Synced " ++ toString es.length ++
            " events from Google Calendar")
          store := store.filter (fun r => r.type != "google_sync") ++
            es.enum.map (fun p =>
              insertGoogleEvent (uuids p.1) (pyIsoformat now) p.2)
          network := true } := by
  cases hf : get_google_calendar_events token now provider with
  | mk res net =>
    cases res with
    | events es =>
      have hnet : net = true := fetch_events_net token now provider es net hf
      subst hnet
      by_cases hall : es.all (fun e => e.start_date.isSome) = true
      · exact ⟨es, rfl, hall,
          sync_eval_events token now provider uuids store es true hf hall⟩
      · rw [sync_eval_badrow token now provider uuids store es true hf
          (Bool.not_eq_true _ ▸ hall)] at h
        simp [SyncResponse.isOk] at h
    | fetchError msg s =>
      rw [sync_eval_fetch_error token now provider uuids store msg s net hf]
        at h
      simp [SyncResponse.isOk] at h

theorem fetch_eval_no_token (now : Nat)
    (pr : ListRequestParams → ProviderCall ProviderListResponse) :
    get_google_calendar_events none now pr =
      (.fetchError "Not authenticated with Google" 401, false) := rfl

theorem fetch_eval_ok (t : String) (now : Nat)
    (pr : ListRequestParams → ProviderCall ProviderListResponse)
    (rr : ProviderListResponse) (es : List TranslatedEvent)
    (hp : pr (googleListParams now) = .response rr) (hs : rr.status = 200)
    (hm : rr.items.mapM translateGoogleEvent = some es) :
    get_google_calendar_events (some t) now pr = (.events es, true) := by
  unfold get_google_calendar_events
  rw [hp]
  have hcond : (rr.status == 200) = true := by simp [hs]
  simp only [hcond, if_true, hm]

theorem fetch_eval_bad_status (t : String) (now : Nat)
    (pr : ListRequestParams → ProviderCall ProviderListResponse)
    (rr : ProviderListResponse)
    (hp : pr (googleListParams now) = .response rr)
    (hs : (rr.status == 200) = false) :
    get_google_calendar_events (some t) now pr =
      (.fetchError "Failed to fetch Google Calendar events" rr.status, true)
      := by
  unfold get_google_calendar_events
  rw [hp]
  simp [hs]

theorem fetch_eval_transport (t : String) (now : Nat)
    (pr : ListRequestParams → ProviderCall ProviderListResponse)
    (m : String)
    (hp : pr (googleListParams now) = .transportFailure m) :
    get_google_calendar_events (some t) now pr = (.fetchError m 500, true)
      := by
  unfold get_google_calendar_events
  rw [hp]

/-- C1: for every successful pullAndReconcile call (the sync endpoint
returning its 200 success), the resulting table holds, as its
`type = google_sync` rows, exactly one freshly inserted row per event of the
most recent fetch, in fetch order, and the sub-sequence of rows of every
other type is exactly what it was before the call: locally authored rows are
neither altered nor removed. -/
theorem sync_replaces_remote_preserves_local (token : Option String)
    (now : Nat)
    (provider : ListRequestParams → ProviderCall ProviderListResponse)
    (uuids : Nat → String) (store : List CalendarRecord)
    (es : List TranslatedEvent)
    (hf : get_google_calendar_events token now provider = (.events es, true))
    (h : (sync_google_calendar token now provider uuids store).response.isOk
      = true) :
    ((sync_google_calendar token now provider uuids store).store.filter
        (fun r => r.type == "google_sync")) =
      es.enum.map (fun p =>
        insertGoogleEvent (uuids p.1) (pyIsoformat now) p.2) ∧
    ((sync_google_calendar token now provider uuids store).store.filter
        (fun r => r.type != "google_sync")) =
      store.filter (fun r => r.type != "google_sync") := by
  obtain ⟨es2, hf2, hall, heq⟩ := sync_ok_cases token now provider uuids store h
  have hes : es2 = es := by
    rw [hf] at hf2
    simpa using hf2.symm
  subst hes
  constructor
  · rw [heq]
    dsimp only
    rw [List.filter_append, cleared_filter_remote_nil, remote_filter_fresh,
      List.nil_append]
  · rw [heq]
    dsimp only
    rw [List.filter_append, cleared_filter_local_self, local_filter_fresh,
      List.append_nil]

/-- Translation of `demoGoogleEvent1`. -/
def demoTranslated1 : TranslatedEvent :=
  { id := "g1"
    title := "Dinner"
    description := "Taco night"
    start_date := some "2024-01-05T18:00:00"
    end_date := some "2024-01-05T20:00:00"
    type := "google_calendar"
    created_by := "Google Calendar"
    attendees := ["ana@example.test"]
    location := "Home"
    source := "google" }

theorem sync_replaces_remote_preserves_local_witness :
    ((sync_google_calendar (some "tok") 7 demoProvider1 demoUuids
        [demoLocalRecord]).store.filter
        (fun r => r.type == "google_sync")) =
      [demoTranslated1].enum.map (fun p =>
        insertGoogleEvent (demoUuids p.1) (pyIsoformat 7) p.2) ∧
    ((sync_google_calendar (some "tok") 7 demoProvider1 demoUuids
        [demoLocalRecord]).store.filter
        (fun r => r.type != "google_sync")) =
      [demoLocalRecord].filter (fun r => r.type != "google_sync") :=
  sync_replaces_remote_preserves_local (some "tok") 7 demoProvider1 demoUuids
    [demoLocalRecord] [demoTranslated1] (by decide) (by decide)

/-- Remote event whose start date is an unparseable string; the source never
parses date fields, so this event translates like any other. -/
def demoMalformedEvent : GoogleEvent :=
  { id := some "g-bad"
    summary := some "Broken"
    start := { dateTime := some "not-a-date" }
    end_ := {} }

/-- Second well-formed remote event for the three-event scenario. -/
def demoGoogleEvent2 : GoogleEvent :=
  { id := some "g2"
    summary := some "Game night"
    start := { dateTime := some "2024-01-12T19:00:00" }
    end_ := { dateTime := some "2024-01-12T21:00:00" } }

/-- Translation of `demoMalformedEvent`: the garbage start date is copied
verbatim. -/
def demoTranslatedMalformed : TranslatedEvent :=
  { id := "g-bad"
    title := "Broken"
    description := ""
    start_date := some "not-a-date"
    end_date := none
    type := "google_calendar"
    created_by := "Google Calendar"
    attendees := []
    location := ""
    source := "google" }

/-- Translation of `demoGoogleEvent2`. -/
def demoTranslated2 : TranslatedEvent :=
  { id := "g2"
    title := "Game night"
    description := ""
    start_date := some "2024-01-12T19:00:00"
    end_date := some "2024-01-12T21:00:00"
    type := "google_calendar"
    created_by := "Google Calendar"
    attendees := []
    location := ""
    source := "google" }

/-- The three-event fetch of the scenario: one of the three events carries an
unparseable start date. -/
def demoFetch3 : ListRequestParams → ProviderCall ProviderListResponse :=
  fun _ => .response
    { status := 200
      items := [demoGoogleEvent1, demoMalformedEvent, demoGoogleEvent2] }

/-- C2 as stated is false on the code: in the scenario of a fetch returning
3 events of which one has an unparseable start date, the claim requires
synced-count 2, exactly 2 remote-sync rows, and skip-count 1; the source has
no per-event translation failure at all (date strings are copied verbatim,
never parsed), so all 3 events are inserted and the response reports 3, and
no skip counter exists anywhere in the code. -/
theorem sync_no_skip_counterexample :
    ((sync_google_calendar (some "tok") 0 demoFetch3 demoUuids
        []).store.filter (fun r => r.type == "google_sync")).length = 3 ∧
    (sync_google_calendar (some "tok") 0 demoFetch3 demoUuids []).response =
      .ok "Synced 3 events from Google Calendar" ∧
    ¬ (((sync_google_calendar (some "tok") 0 demoFetch3 demoUuids
        []).store.filter (fun r => r.type == "google_sync")).length = 2) ∧
    ¬ ((sync_google_calendar (some "tok") 0 demoFetch3 demoUuids
        []).response = .ok "Synced 2 events from Google Calendar") := by
  decide

/-- C2 amended: the sync pass has no per-event skip path — a remote event
with an unparseable start date is translated like any other, its date string
copied verbatim — so every translated event of the fetch is inserted, the
count of remote-sync rows afterwards equals the full fetch size, and the
response reports that same number (in the 3-event scenario: 3 synced rows,
not 2, and no skip count). -/
theorem sync_inserts_every_translated (t : String) (now : Nat)
    (items : List GoogleEvent) (es : List TranslatedEvent)
    (uuids : Nat → String) (store : List CalendarRecord)
    (hm : items.mapM translateGoogleEvent = some es)
    (hall : es.all (fun e => e.start_date.isSome) = true) :
    (sync_google_calendar (some t) now
        (fun _ => .response { status := 200, items := items }) uuids
        store).response =
      .ok ("Synced " ++ toString es.length ++
        " events from Google Calendar") ∧
    ((sync_google_calendar (some t) now
        (fun _ => .response { status := 200, items := items }) uuids
        store).store.filter (fun r => r.type == "google_sync")).length =
      es.length := by
  have hf : get_google_calendar_events (some t) now
      (fun _ => .response { status := 200, items := items }) =
      (.events es, true) :=
    fetch_eval_ok t now _ { status := 200, items := items } es rfl rfl hm
  have heq := sync_eval_events (some t) now
    (fun _ => .response { status := 200, items := items }) uuids store es
    true hf hall
  constructor
  · rw [heq]
  · rw [heq]
    dsimp only
    rw [List.filter_append, cleared_filter_remote_nil, remote_filter_fresh,
      List.nil_append, List.length_map]
    exact List.enum_length

theorem sync_inserts_every_translated_witness :
    (sync_google_calendar (some "tok") 0 demoFetch3 demoUuids
        []).response =
      .ok ("Synced " ++ toString
        [demoTranslated1, demoTranslatedMalformed, demoTranslated2].length ++
        " events from Google Calendar") ∧
    ((sync_google_calendar (some "tok") 0 demoFetch3 demoUuids
        []).store.filter (fun r => r.type == "google_sync")).length =
      [demoTranslated1, demoTranslatedMalformed, demoTranslated2].length := by
  have h := sync_inserts_every_translated "tok" 0
    [demoGoogleEvent1, demoMalformedEvent, demoGoogleEvent2]
    [demoTranslated1, demoTranslatedMalformed, demoTranslated2]
    demoUuids [] (by decide) (by decide)
  exact h

/-- A complete event draft for the push scenarios. -/
def demoDraft : EventDraft :=
  { title := some "Movie night"
    description := some "Pick a film"
    start_date := some "2024-01-20T19:00:00"
    end_date := some "2024-01-20T21:00:00"
    location := some "Living room"
    attendees := some ["bo@example.test"]
    created_by := some "Bo" }

/-- C3 as stated is false on the code: pushing `demoDraft` against a
provider answering 200 with id ext-42 inserts one row, but that row carries
`type = 'google_sync'` — the same tag as pulled copies, not the claimed
`local` tag — and no field of the row holds the remote id ext-42 (the
explicit row below shows every stored field; the remote id appears only in
the response body, and the response does not include the local id). -/
theorem push_origin_counterexample :
    (create_google_calendar_event (some "tok") demoDraft
        (.response { status := 200, googleId := "ext-42" }) "local-uuid-1" 3
        []).store =
      [{ id := "local-uuid-1"
         title := "Movie night"
         description := "Pick a film"
         start_date := some "2024-01-20T19:00:00"
         end_date := some "2024-01-20T21:00:00"
         type := "google_sync"
         created_by := "Bo"
         attendees := "[\"bo@example.test\"]"
         location := "Living room"
         created_at := "3" }] ∧
    (∀ r ∈ (create_google_calendar_event (some "tok") demoDraft
        (.response { status := 200, googleId := "ext-42" }) "local-uuid-1" 3
        []).store, ¬ (r.type = "local")) ∧
    (create_google_calendar_event (some "tok") demoDraft
        (.response { status := 200, googleId := "ext-42" }) "local-uuid-1" 3
        []).response =
      .ok "ext-42" "Event created in Google Calendar and synced locally" := by
  decide

/-- C3 amended: for every push whose remote create succeeds with remote id
R, exactly one new local row is appended; its origin tag is `google_sync`
(the remote-sync tag, identical to pulled copies, not `local`), the remote
id R is not stored in any field of the row, and the response returns R with
a message but not the local row id. -/
theorem push_success_inserts_google_sync (tk ti sd ed gid uuid : String)
    (draft : EventDraft) (now : Nat) (store : List CalendarRecord)
    (h1 : draft.title = some ti) (h2 : draft.start_date = some sd)
    (h3 : draft.end_date = some ed) :
    create_google_calendar_event (some tk) draft
        (.response { status := 200, googleId := gid }) uuid now store =
      { response := .ok gid
          "Event created in Google Calendar and synced locally"
        store := store ++ [{
          id := uuid
          title := ti
          description := draft.description.getD ""
          start_date := some sd
          end_date := some ed
          type := "google_sync"
          created_by := draft.created_by.getD "System"
          attendees := jsonDumps (draft.attendees.getD [])
          location := draft.location.getD ""
          created_at := pyIsoformat now }]
        network := true } := by
  unfold create_google_calendar_event
  rw [h1, h2, h3]
  rfl

theorem push_success_inserts_google_sync_witness :
    create_google_calendar_event (some "tok") demoDraft
        (.response { status := 200, googleId := "ext-42" }) "local-uuid-1" 3
        [demoLocalRecord] =
      { response := .ok "ext-42"
          "Event created in Google Calendar and synced locally"
        store := [demoLocalRecord] ++ [{
          id := "local-uuid-1"
          title := "Movie night"
          description := demoDraft.description.getD ""
          start_date := some "2024-01-20T19:00:00"
          end_date := some "2024-01-20T21:00:00"
          type := "google_sync"
          created_by := demoDraft.created_by.getD "System"
          attendees := jsonDumps (demoDraft.attendees.getD [])
          location := demoDraft.location.getD ""
          created_at := pyIsoformat 3 }]
        network := true } :=
  push_success_inserts_google_sync "tok" "Movie night"
    "2024-01-20T19:00:00" "2024-01-20T21:00:00" "ext-42" "local-uuid-1"
    demoDraft 3 [demoLocalRecord] (by decide) (by decide) (by decide)

/-- The draft of the C5 scenario: identical to `demoDraft` but lacking the
end timestamp. -/
def demoDraftNoEnd : EventDraft :=
  { demoDraft with end_date := none }

/-- C5: a push whose draft lacks the end timestamp fails before the HTTP
call is reached — reading `data['end_date']` raises, the handler catches it
and returns the error response — so no network call is made and the table
is unchanged.  The surfaced error is the caught missing-key failure naming
`end_date` (HTTP 500 with the stringified KeyError), which is the code form
of the ValidationError of the spec taxonomy (caller draft missing a
required field, fatal to the one push). -/
theorem push_missing_end_no_call_no_mutation (tk ti sd : String)
    (draft : EventDraft) (prov : ProviderCall ProviderCreateResponse)
    (uuid : String) (now : Nat) (store : List CalendarRecord)
    (h1 : draft.title = some ti) (h2 : draft.start_date = some sd)
    (h3 : draft.end_date = none) :
    create_google_calendar_event (some tk) draft prov uuid now store =
      { response := .error "KeyError: end_date" 500
        store := store
        network := false } := by
  unfold create_google_calendar_event
  rw [h1, h2, h3]

theorem push_missing_end_no_call_no_mutation_witness :
    create_google_calendar_event (some "tok") demoDraftNoEnd
        (.response { status := 200, googleId := "ext-42" }) "local-uuid-1" 3
        [demoLocalRecord] =
      { response := .error "KeyError: end_date" 500
        store := [demoLocalRecord]
        network := false } :=
  push_missing_end_no_call_no_mutation "tok" "Movie night"
    "2024-01-20T19:00:00" demoDraftNoEnd
    (.response { status := 200, googleId := "ext-42" }) "local-uuid-1" 3
    [demoLocalRecord] (by decide) (by decide) (by decide)

/-- Whether one provider list call failed: a non-2xx response or a raised
transport error. -/
def providerCallFails : ProviderCall ProviderListResponse → Bool
  | .response r => r.status != 200
  | .transportFailure _ => true

/-- A provider answering the list request with HTTP 403. -/
def demoProvider403 : ListRequestParams → ProviderCall ProviderListResponse :=
  fun _ => .response { status := 403, items := [] }

/-- C4 as stated is false on the code in its surfacing half: when the
provider answers the list request with 403, the inner fetch view does
carry the provider status 403 outward in its returned tuple, but the sync
endpoint never reads it — `.status_code` on the tuple raises
AttributeError, which the handler catches and surfaces as the stringified
exception with HTTP 500 — so the provider error is not surfaced to the
sync caller.  (The no-mutation half holds; see the amended theorem.) -/
theorem sync_fetch_failure_counterexample :
    (get_google_calendar_events (some "tok") 0 demoProvider403).1 =
      .fetchError "Failed to fetch Google Calendar events" 403 ∧
    (sync_google_calendar (some "tok") 0 demoProvider403 demoUuids
        [demoLocalRecord]).response =
      .error "AttributeError: tuple object has no attribute status_code"
        500 ∧
    ¬ ((sync_google_calendar (some "tok") 0 demoProvider403 demoUuids
        [demoLocalRecord]).response.statusCode = 403) := by
  decide

/-- C4 amended: when the remote event fetch fails (non-2xx response or
transport failure), the sync call aborts with an error and the table is
byte-for-byte unchanged — no delete and no insert — but the surfaced error
is not the provider error: the inner fetch view returns a
`(Response, status)` tuple on failure, reading `.status_code` on it raises
AttributeError, and the sync handler surfaces that stringified exception
with HTTP 500, discarding the provider status carried in the tuple. -/
theorem sync_fetch_failure_leaves_store (t : String) (now : Nat)
    (pr : ListRequestParams → ProviderCall ProviderListResponse)
    (uuids : Nat → String) (store : List CalendarRecord)
    (h : providerCallFails (pr (googleListParams now)) = true) :
    sync_google_calendar (some t) now pr uuids store =
      { response := .error
          "AttributeError: tuple object has no attribute status_code" 500
        store := store
        network := true } := by
  cases hp : pr (googleListParams now) with
  | response rr =>
    rw [hp] at h
    simp only [providerCallFails, bne_iff_ne, ne_eq] at h
    have hs : (rr.status == 200) = false := by
      simp [h]
    exact sync_eval_fetch_error (some t) now pr uuids store
      "Failed to fetch Google Calendar events" rr.status true
      (fetch_eval_bad_status t now pr rr hp hs)
  | transportFailure m =>
    exact sync_eval_fetch_error (some t) now pr uuids store m 500 true
      (fetch_eval_transport t now pr m hp)

theorem sync_fetch_failure_leaves_store_witness :
    sync_google_calendar (some "tok") 0 demoProvider403 demoUuids
        [demoLocalRecord] =
      { response := .error
          "AttributeError: tuple object has no attribute status_code" 500
        store := [demoLocalRecord]
        network := true } :=
  sync_fetch_failure_leaves_store "tok" 0 demoProvider403 demoUuids
    [demoLocalRecord] (by decide)

/-- C6 as stated is false on the code in its error identity: calling sync
with no access credential in the session performs no remote call and no
store mutation, but the sync endpoint does not fail with the 401
Unauthorized of the inner fetch — the fetch view returns its 401 as a
`(Response, status)` tuple, reading `.status_code` on it raises
AttributeError, and the sync handler surfaces that stringified exception
with HTTP 500. -/
theorem sync_unauthorized_counterexample :
    (get_google_calendar_events none 0 demoProvider1).1 =
      .fetchError "Not authenticated with Google" 401 ∧
    (sync_google_calendar none 0 demoProvider1 demoUuids
        [demoLocalRecord]).response.statusCode = 500 ∧
    ¬ ((sync_google_calendar none 0 demoProvider1 demoUuids
        [demoLocalRecord]).response.statusCode = 401) := by
  decide

/-- C6 amended: a sync call made while the session holds no access
credential makes no remote call and performs no store mutation, but the
error surfaced to the sync caller is not Unauthorized: the inner fetch
view produces the 401 precondition failure as a `(Response, status)`
tuple, reading `.status_code` on it raises AttributeError, and the sync
handler surfaces that stringified exception with HTTP 500. -/
theorem sync_unauthorized_no_call_no_mutation (now : Nat)
    (pr : ListRequestParams → ProviderCall ProviderListResponse)
    (uuids : Nat → String) (store : List CalendarRecord) :
    sync_google_calendar none now pr uuids store =
      { response := .error
          "AttributeError: tuple object has no attribute status_code" 500
        store := store
        network := false } :=
  sync_eval_fetch_error none now pr uuids store
    "Not authenticated with Google" 401 false (fetch_eval_no_token now pr)

theorem fetch_eval_bad_id (t : String) (now : Nat)
    (pr : ListRequestParams → ProviderCall ProviderListResponse)
    (rr : ProviderListResponse)
    (hp : pr (googleListParams now) = .response rr) (hs : rr.status = 200)
    (hm : rr.items.mapM translateGoogleEvent = none) :
    get_google_calendar_events (some t) now pr =
      (.fetchError "KeyError: id" 500, true) := by
  unfold get_google_calendar_events
  rw [hp]
  have hcond : (rr.status == 200) = true := by simp [hs]
  simp only [hcond, if_true, hm]

theorem stable_of_fresh_from (uuids : Nat → String) (nowS : String)
    (es : List TranslatedEvent) : ∀ n : Nat,
    ((List.enumFrom n es).map (fun p =>
        insertGoogleEvent (uuids p.1) nowS p.2)).map stableContent =
      es.map (fun e =>
        { title := e.title, description := e.description
          start_date := e.start_date, end_date := e.end_date
          type := "google_sync", created_by := "Google Calendar"
          attendees := jsonDumps e.attendees
          location := e.location : StableContent }) := by
  induction es with
  | nil => intro n; rfl
  | cons a l ih =>
    intro n
    simp only [List.enumFrom, List.map_cons, ih (n + 1)]
    rfl

theorem stable_of_fresh (uuids : Nat → String) (nowS : String)
    (es : List TranslatedEvent) :
    ((es.enum.map (fun p =>
        insertGoogleEvent (uuids p.1) nowS p.2)).map stableContent) =
      es.map (fun e =>
        { title := e.title, description := e.description
          start_date := e.start_date, end_date := e.end_date
          type := "google_sync", created_by := "Google Calendar"
          attendees := jsonDumps e.attendees
          location := e.location : StableContent }) :=
  stable_of_fresh_from uuids nowS es 0

/-- C7 as stated is false on the code: the two runs insert fresh rows with
fresh `created_at` timestamps read from the clock at insertion time, so the
remote-origin rows after the second run differ from those after the first
in the `created_at` field, not only in ids.  Here the first run happens at
clock 1 and the second at clock 2, on the same one-event remote result
set. -/
theorem sync_twice_counterexample :
    (((sync_google_calendar (some "tok") 2 demoProvider1 demoUuids
        (sync_google_calendar (some "tok") 1 demoProvider1 demoUuids
          [demoLocalRecord]).store).store.filter
        (fun r => r.type == "google_sync")).map
          (fun r => r.created_at)) = ["2"] ∧
    (((sync_google_calendar (some "tok") 1 demoProvider1 demoUuids
        [demoLocalRecord]).store.filter
        (fun r => r.type == "google_sync")).map
          (fun r => r.created_at)) = ["1"] ∧
    ¬ ((((sync_google_calendar (some "tok") 2 demoProvider1 demoUuids
        (sync_google_calendar (some "tok") 1 demoProvider1 demoUuids
          [demoLocalRecord]).store).store.filter
        (fun r => r.type == "google_sync")).map contentExceptId) =
      (((sync_google_calendar (some "tok") 1 demoProvider1 demoUuids
        [demoLocalRecord]).store.filter
        (fun r => r.type == "google_sync")).map contentExceptId)) := by
  decide

/-- C7 amended: for every store state and every fixed remote result set,
running the sync twice in a row leaves the remote-origin rows unchanged in
content up to the locally generated ids and the `created_at` insertion
timestamps (which are re-generated each pass); every other field value is
preserved between the two runs. -/
theorem sync_twice_remote_content_stable (token : Option String)
    (now1 now2 : Nat) (r : ProviderCall ProviderListResponse)
    (uuids1 uuids2 : Nat → String) (store : List CalendarRecord) :
    remoteStable ((sync_google_calendar token now2 (fun _ => r) uuids2
        (sync_google_calendar token now1 (fun _ => r) uuids1
          store).store).store) =
      remoteStable ((sync_google_calendar token now1 (fun _ => r) uuids1
        store).store) := by
  cases token with
  | none =>
    rw [sync_eval_fetch_error none now1 (fun _ => r) uuids1 store
      "Not authenticated with Google" 401 false
      (fetch_eval_no_token now1 (fun _ => r))]
    rw [sync_eval_fetch_error none now2 (fun _ => r) uuids2 _
      "Not authenticated with Google" 401 false
      (fetch_eval_no_token now2 (fun _ => r))]
  | some t =>
    cases r with
    | transportFailure m =>
      rw [sync_eval_fetch_error (some t) now1 (fun _ => .transportFailure m)
        uuids1 store m 500 true
        (fetch_eval_transport t now1 (fun _ => .transportFailure m) m rfl)]
      rw [sync_eval_fetch_error (some t) now2 (fun _ => .transportFailure m)
        uuids2 _ m 500 true
        (fetch_eval_transport t now2 (fun _ => .transportFailure m) m rfl)]
    | response rr =>
      by_cases hs : rr.status = 200
      · cases hm : rr.items.mapM translateGoogleEvent with
        | none =>
          rw [sync_eval_fetch_error (some t) now1 (fun _ => .response rr)
            uuids1 store "KeyError: id" 500 true
            (fetch_eval_bad_id t now1 (fun _ => .response rr) rr rfl hs hm)]
          rw [sync_eval_fetch_error (some t) now2 (fun _ => .response rr)
            uuids2 _ "KeyError: id" 500 true
            (fetch_eval_bad_id t now2 (fun _ => .response rr) rr rfl hs hm)]
        | some es =>
          by_cases hall : es.all (fun e => e.start_date.isSome) = true
          · rw [sync_eval_events (some t) now1 (fun _ => .response rr)
              uuids1 store es true
              (fetch_eval_ok t now1 (fun _ => .response rr) rr es rfl hs hm)
              hall]
            rw [sync_eval_events (some t) now2 (fun _ => .response rr)
              uuids2 _ es true
              (fetch_eval_ok t now2 (fun _ => .response rr) rr es rfl hs hm)
              hall]
            dsimp only
            unfold remoteStable
            simp only [List.filter_append, cleared_filter_local_self,
              local_filter_fresh, cleared_filter_remote_nil,
              remote_filter_fresh, List.append_nil, List.nil_append,
              stable_of_fresh]
          · have hall2 : es.all (fun e => e.start_date.isSome) = false := by
              simp only [Bool.not_eq_true] at hall
              exact hall
            rw [sync_eval_badrow (some t) now1 (fun _ => .response rr)
              uuids1 store es true
              (fetch_eval_ok t now1 (fun _ => .response rr) rr es rfl hs hm)
              hall2]
            rw [sync_eval_badrow (some t) now2 (fun _ => .response rr)
              uuids2 _ es true
              (fetch_eval_ok t now2 (fun _ => .response rr) rr es rfl hs hm)
              hall2]
      · have hs' : (rr.status == 200) = false := by simp [hs]
        rw [sync_eval_fetch_error (some t) now1 (fun _ => .response rr)
          uuids1 store "Failed to fetch Google Calendar events" rr.status
          true (fetch_eval_bad_status t now1 (fun _ => .response rr) rr rfl
            hs')]
        rw [sync_eval_fetch_error (some t) now2 (fun _ => .response rr)
          uuids2 _ "Failed to fetch Google Calendar events" rr.status true
          (fetch_eval_bad_status t now2 (fun _ => .response rr) rr rfl hs')]

/-- C8 as stated is false on the code in its window half: the request the
fetch endpoint sends does ask for server-side expansion and ascending start
order, but its time bounds are the fixed window from the current clock to
30 days later — the route accepts no caller-supplied window at all.  Here,
at clock value 5, the request the code builds differs from the request the
spec prescribes for a caller window of 100 to 200. -/
theorem list_window_counterexample :
    googleListParams 5 =
      { timeMin := pyIsoformat 5 ++ "Z"
        timeMax := pyIsoformat (5 + 30 * 86400) ++ "Z"
        singleEvents := true
        orderBy := "startTime" } ∧
    ¬ (googleListParams 5 = specListParams 100 200) := by
  decide

/-- C8 amended: the list request carries server-side expansion
(`singleEvents=true`) and ascending start-time order, but its window is not
caller-supplied: it is the fixed window from the current clock to 30 days
later, i.e. the code builds exactly the spec-modelled request for the
window from `now` to `now + 30 days`. -/
theorem list_params_fixed_window (now : Nat) :
    (googleListParams now).singleEvents = true ∧
    (googleListParams now).orderBy = "startTime" ∧
    googleListParams now = specListParams now (now + 30 * 86400) :=
  ⟨rfl, rfl, rfl⟩

/-- C9: building the authorization URL is a plain function of the client
identity, redirect URI and scope — modelled as such, with no state and no
provider interaction in its type — and the URL it returns carries exactly
the six query parameters: the three caller-supplied values plus the fixed
`response_type=code`, `access_type=offline` and `prompt=consent`. -/
theorem google_auth_url_params (clientId redirectUri scope : String) :
    google_auth clientId redirectUri scope =
      "https://accounts.google.com/o/oauth2/auth" ++ "?" ++
        urlencode (googleAuthParams clientId redirectUri scope) ∧
    (googleAuthParams clientId redirectUri scope).lookup "client_id" =
      some clientId ∧
    (googleAuthParams clientId redirectUri scope).lookup "redirect_uri" =
      some redirectUri ∧
    (googleAuthParams clientId redirectUri scope).lookup "scope" =
      some scope ∧
    (googleAuthParams clientId redirectUri scope).lookup "response_type" =
      some "code" ∧
    (googleAuthParams clientId redirectUri scope).lookup "access_type" =
      some "offline" ∧
    (googleAuthParams clientId redirectUri scope).lookup "prompt" =
      some "consent" ∧
    (googleAuthParams clientId redirectUri scope).length = 6 :=
  ⟨rfl, rfl, rfl, rfl, rfl, rfl, rfl, rfl⟩

/-- C10 as stated is false on the code in its universal non-empty-title
conclusion: translation substitutes the fixed title only when the summary
key is absent; a provider event that carries an empty-string summary is
translated with an empty title. -/
theorem translate_empty_summary_counterexample :
    ¬ (∀ (e : GoogleEvent) (t : TranslatedEvent),
        translateGoogleEvent e = some t → ¬ (t.title = "")) := by
  intro h
  exact h { id := some "g-empty", summary := some "",
            start := { date := some "2024-01-03" } } _ rfl rfl

/-- C10 amended: translation is total over absent optional provider fields
and defaults them as claimed — a missing summary yields the fixed title
`No Title` (which is non-empty), a missing description or location yields
the empty string, and a missing attendee list yields the empty list — but a
present empty-string summary is copied verbatim, so it is not true that
every translated event has a non-empty title. -/
theorem translate_defaults (e : GoogleEvent) (i : String)
    (h : e.id = some i) :
    (translateGoogleEvent e).isSome = true ∧
    (e.summary = none →
      (translateGoogleEvent e).map TranslatedEvent.title =
        some "No Title") ∧
    (e.description = none →
      (translateGoogleEvent e).map TranslatedEvent.description = some "") ∧
    (e.location = none →
      (translateGoogleEvent e).map TranslatedEvent.location = some "") ∧
    (e.attendees = [] →
      (translateGoogleEvent e).map TranslatedEvent.attendees = some []) ∧
    (e.summary = none →
      ¬ ((translateGoogleEvent e).map TranslatedEvent.title = some "")) := by
  refine ⟨?_, ?_, ?_, ?_, ?_, ?_⟩
  · unfold translateGoogleEvent
    rw [h]
    rfl
  · intro hs
    unfold translateGoogleEvent
    rw [h]
    simp [hs]
  · intro hd
    unfold translateGoogleEvent
    rw [h]
    simp [hd]
  · intro hl
    unfold translateGoogleEvent
    rw [h]
    simp [hl]
  · intro ha
    unfold translateGoogleEvent
    rw [h]
    simp [ha]
  · intro hs
    unfold translateGoogleEvent
    rw [h]
    simp [hs]

theorem translate_defaults_witness :
    (translateGoogleEvent { id := some "g9" }).isSome = true ∧
    (({ id := some "g9" } : GoogleEvent).summary = none →
      (translateGoogleEvent { id := some "g9" }).map TranslatedEvent.title =
        some "No Title") ∧
    (({ id := some "g9" } : GoogleEvent).description = none →
      (translateGoogleEvent { id := some "g9" }).map
        TranslatedEvent.description = some "") ∧
    (({ id := some "g9" } : GoogleEvent).location = none →
      (translateGoogleEvent { id := some "g9" }).map
        TranslatedEvent.location = some "") ∧
    (({ id := some "g9" } : GoogleEvent).attendees = [] →
      (translateGoogleEvent { id := some "g9" }).map
        TranslatedEvent.attendees = some []) ∧
    (({ id := some "g9" } : GoogleEvent).summary = none →
      ¬ ((translateGoogleEvent { id := some "g9" }).map
        TranslatedEvent.title = some "")) :=
  translate_defaults { id := some "g9" } "g9" rfl

end RoommateApp
